import Mathlib

/-!
Verification development for the dialogue-orchestrator backend
(`backend/yandex_handler.py`).

Conventions of the shallow embedding:
* Python strings are Lean `String` / `List Char`; `str.lower()` is modelled by
  `pyLower`, which lowercases ASCII and the Cyrillic range actually used by the
  program's inputs and pattern tables.
* Python `re.search(pattern, text)` is modelled by a small executable
  backtracking matcher `reSearch` over an AST `RE`; every pattern of the source
  tables is transcribed into this AST.  All repetition operators in the source
  patterns range over single-character classes, which is what `RE.many` /
  `RE.many1` implement.  `\b`, `\d`, `\w`, `\s` follow Python semantics on the
  ASCII + Cyrillic alphabet.
* Calendar dates written `DD.MM.YYYY` on the wire are represented by their
  civil day number (`daysFromCivil`); this representation is bijective for
  valid dates, and `datetime` comparison / `timedelta(days = n)` become `<` and
  `+ n` on day numbers.
-/

/-- Lowercasing as performed by Python `str.lower()` restricted to the
alphabets that occur in the program: ASCII plus Cyrillic А-Я and Ё. -/
def pyLowerChar (c : Char) : Char :=
  if 0x410 ≤ c.toNat ∧ c.toNat ≤ 0x42F then Char.ofNat (c.toNat + 0x20)
  else if c.toNat = 0x401 then Char.ofNat 0x451
  else c.toLower

/-- Lowercase a whole string (model of `str.lower()`). -/
def pyLower (s : String) : String := String.mk (s.data.map pyLowerChar)

/-- Python regex `\s` / `str.strip()` whitespace (ASCII subset). -/
def pyIsSpace (c : Char) : Bool :=
  c == ' ' || c == '\t' || c == '\n' || c == '\r' || c == '\x0b' || c == '\x0c'

/-- Python regex `\w` on the alphabets in use: ASCII alphanumerics, underscore,
Cyrillic letters (А-Я, а-я, Ё, ё). -/
def pyIsWord (c : Char) : Bool :=
  (c.toNat ≥ 0x30 && c.toNat ≤ 0x39) ||
  (c.toNat ≥ 0x41 && c.toNat ≤ 0x5A) ||
  (c.toNat ≥ 0x61 && c.toNat ≤ 0x7A) ||
  c == '_' ||
  (c.toNat ≥ 0x410 && c.toNat ≤ 0x44F) ||
  c.toNat == 0x401 || c.toNat == 0x451

/-- Does `needle` occur as a leading run of `hay`? (helper for substring search) -/
def leadsList : List Char → List Char → Bool
  | [], _ => true
  | _ :: _, [] => false
  | a :: as, b :: bs => a == b && leadsList as bs

/-- Model of Python's `needle in hay` substring test. -/
def isSub (needle : List Char) : List Char → Bool
  | [] => needle.isEmpty
  | c :: rest => leadsList needle (c :: rest) || isSub needle rest

/-- Model of Python `hay.find(needle, start)` restricted to the tail
`hay.drop start`; `i` is the running absolute index.  Returns the absolute
index of the first occurrence, `none` for Python's `-1`. -/
def findSubAux (needle : List Char) : List Char → Nat → Option Nat
  | [], i => if needle.isEmpty then some i else none
  | c :: rest, i =>
    if leadsList needle (c :: rest) then some i else findSubAux needle rest (i + 1)

/-- Strip whitespace from both ends (model of `str.strip()`). -/
def pyStrip (s : List Char) : List Char :=
  ((s.dropWhile pyIsSpace).reverse.dropWhile pyIsSpace).reverse

/-- Strip the artifact characters `'�\n \t'` from the right end
(model of the `rstrip` call in `_dedup_response`). -/
def rstripArtifacts (s : List Char) : List Char :=
  (s.reverse.dropWhile
    (fun c => c == '�' || c == '\n' || c == ' ' || c == '\t')).reverse

/-- Moderation phrases of `_is_self_moderation`. -/
def moderationPhrases : List String :=
  [ "не могу обсуждать эту тему",
    "я не могу обсуждать",
    "не могу помочь с этим",
    "давайте поговорим о чём-нибудь",
    "поговорим о чём-нибудь ещё",
    "я не могу отвечать на этот вопрос" ]

/-- Model of `_is_self_moderation`: detects self-moderation answers.  The text
is lowercased, stripped, the leading markup `#` removed, stripped again, and
searched for any of the fixed refusal phrases. -/
def isSelfModeration (text : String) : Bool :=
  if text.isEmpty then false
  else
    let lower := pyStrip ((pyStrip (pyLower text).data).dropWhile (· == '#'))
    moderationPhrases.any (fun p => isSub p.data lower)

/-- Promised-action phrases of `_is_promised_search`. -/
def promisePhrases : List String :=
  [ "начну поиск", "начинаю поиск", "запускаю поиск", "приступаю к поиску",
    "сейчас поищу", "сейчас найду", "сейчас подберу", "сейчас подбираю",
    "начну подбор", "начинаю подбор",
    "подберу для вас", "поищу для вас", "найду для вас",
    "ищу подходящие", "ищу для вас", "ищу варианты",
    "давайте поищу", "давайте найду", "давайте подберу",
    "сейчас посмотрю", "сейчас проверю", "сейчас узнаю",
    "сейчас уточню", "сейчас загружу",
    "момент, ищу", "секунду, подбираю", "минуту, проверяю",
    "одну секунду", "один момент" ]

/-- Model of `_is_promised_search`: the model announced an intention to act
("сейчас поищу") instead of emitting a function call. -/
def isPromisedSearch (text : String) : Bool :=
  if text.isEmpty then false
  else
    let lower := pyStrip (pyLower text).data
    promisePhrases.any (fun p => isSub p.data lower)

/-- Model of `_dedup_response`: removes duplicated content that appears when
generation restarts from the top after a corrupted character.  Texts shorter
than 100 characters are returned unchanged; otherwise the first line (if its
stripped form is at least 10 characters) is searched for a later verbatim
occurrence, and the text is truncated just before that occurrence with
trailing artifact characters stripped. -/
def dedupResponse (text : String) : String :=
  let cs := text.data
  if cs.length < 100 then text
  else
    match findSubAux ['\n'] cs 0 with
    | none => text
    | some i =>
      if i < 5 then text
      else
        let firstLine := pyStrip (cs.take i)
        if firstLine.isEmpty || firstLine.length < 10 then text
        else
          match findSubAux firstLine (cs.drop (i + 1)) (i + 1) with
          | none => text
          | some j =>
            if 0 < j then String.mk (rstripArtifacts (cs.take j)) else text

/-!  A small regular-expression engine.

The pattern tables of `_check_cascade_slots` and of the resort check in
`_dispatch_function` only use: literals, character classes, `\b`, `\d`, `\w`,
`\s`, alternation, option `?`, and repetition `*`, `+`, `{m,n}` applied to
single-character classes.  `RE` covers exactly these constructs; matching is
by continuation-passing backtracking carrying the previous character so that
the word-boundary assertion `\b` can be decided. -/
inductive RE : Type
  | eps : RE
  | lit : Char → RE
  | cls : (Char → Bool) → RE
  | bnd : RE
  | seq : RE → RE → RE
  | alt : RE → RE → RE
  | opt : RE → RE
  | many : (Char → Bool) → RE
  | many1 : (Char → Bool) → RE

/-- Word-boundary test at the point between `prev` and the head of `s`. -/
def atBoundary (prev : Option Char) (s : List Char) : Bool :=
  let l := match prev with | some c => pyIsWord c | none => false
  let r := match s with | c :: _ => pyIsWord c | [] => false
  l != r

/-- Backtracking repetition of a single-character class (greedy first, then
the empty repetition). -/
def manyAux (p : Char → Bool) : Option Char → List Char → (Option Char → List Char → Bool) → Bool
  | prev, [], k => k prev []
  | prev, c :: rest, k =>
    (p c && manyAux p (some c) rest k) || k prev (c :: rest)

/-- Match `r` at the current position, calling the continuation `k` with the
new previous-character and remaining input on every way the match can end. -/
def reMatch : RE → Option Char → List Char → (Option Char → List Char → Bool) → Bool
  | .eps, prev, s, k => k prev s
  | .lit _, _, [], _ => false
  | .lit c, _, x :: rest, k => x == c && k (some x) rest
  | .cls _, _, [], _ => false
  | .cls p, _, x :: rest, k => p x && k (some x) rest
  | .bnd, prev, s, k => atBoundary prev s && k prev s
  | .seq a b, prev, s, k => reMatch a prev s (fun p2 s2 => reMatch b p2 s2 k)
  | .alt a b, prev, s, k => reMatch a prev s k || reMatch b prev s k
  | .opt a, prev, s, k => reMatch a prev s k || k prev s
  | .many p, prev, s, k => manyAux p prev s k
  | .many1 _, _, [], _ => false
  | .many1 p, _, x :: rest, k => p x && manyAux p (some x) rest k

/-- Try to match `r` starting at every position (model of `re.search`). -/
def reSearchAux (r : RE) : Option Char → List Char → Bool
  | prev, s =>
    reMatch r prev s (fun _ _ => true) ||
      match s with
      | [] => false
      | c :: rest => reSearchAux r (some c) rest

/-- Boolean `re.search(r, s) is not None`. -/
def reSearch (r : RE) (s : List Char) : Bool := reSearchAux r none s

/-- Literal string pattern. -/
def rstr (s : String) : RE := s.data.foldr (fun c acc => RE.seq (RE.lit c) acc) RE.eps

/-- Concatenation of a pattern list. -/
def rcat (rs : List RE) : RE := rs.foldr RE.seq RE.eps

/-- Alternation `(?:a|b|...)` of a nonempty pattern list. -/
def ralts : List RE → RE
  | [] => RE.eps
  | r :: rest => rest.foldl RE.alt r

/-- Character class listing its members, e.g. `[аыуе]`. -/
def rchars (s : String) : RE := RE.cls (fun c => s.data.contains c)

/-- Character range test `[lo-hi]`. -/
def inRange (lo hi c : Char) : Bool := lo.toNat ≤ c.toNat && c.toNat ≤ hi.toNat

/-- Pattern `\d`. -/
def rD : RE := RE.cls Char.isDigit

/-- Pattern `\d{1,2}`. -/
def rD12 : RE := RE.seq rD (RE.opt rD)

/-- Pattern `\s+`. -/
def rSp : RE := RE.many1 pyIsSpace

/-- Pattern `\s*`. -/
def rSs : RE := RE.many pyIsSpace

/-- Pattern `\w+`. -/
def rWp : RE := RE.many1 pyIsWord

/-- Pattern `\w*`. -/
def rWs : RE := RE.many pyIsWord

/-!  Pattern tables of `_check_cascade_slots`, transcribed one regex per list
entry in source order. -/

/-- Table `departure_patterns` (slot 2, departure city). -/
def departurePatterns : List RE :=
  [ rcat [RE.bnd, ralts [RE.seq (rstr "москв") (rchars "аыуе"), rstr "мск"], RE.bnd],
    rcat [RE.bnd,
      ralts [RE.seq (rstr "петербург") rWs, RE.seq (rstr "питер") rWs,
        rstr "спб", RE.seq (rstr "санкт-петербург") rWs], RE.bnd],
    rcat [RE.bnd, ralts [RE.seq (rstr "екатеринбург") rWs, rstr "еката"], RE.bnd],
    rcat [RE.bnd, RE.seq (rstr "новосибирск") rWs, RE.bnd],
    rcat [RE.bnd, rcat [rstr "казан", rchars "ьи", rWs], RE.bnd],
    rcat [RE.bnd, RE.seq (rstr "краснодар") rWs, RE.bnd],
    rcat [RE.bnd, RE.seq (rstr "красноярск") rWs, RE.bnd],
    rcat [RE.bnd, RE.seq (rstr "самар") rWs, RE.bnd],
    rcat [RE.bnd, rcat [rstr "уф", rchars "аыуе", rWs], RE.bnd],
    rcat [RE.bnd, rcat [rstr "перм", rchars "ьи", rWs], RE.bnd],
    rcat [RE.bnd, RE.seq (rstr "челябинск") rWs, RE.bnd],
    rcat [RE.bnd, RE.seq (rstr "ростов") rWs, RE.bnd],
    rcat [RE.bnd,
      ralts [rcat [rstr "минеральн", rWp, rSs, rstr "вод"],
        rcat [rstr "мин", rSs, rstr "вод"]], RE.bnd],
    rcat [RE.bnd, RE.seq (rstr "тюмен") (rchars "ьи"), RE.bnd],
    rcat [RE.bnd,
      ralts [rcat [rstr "нижн", rWp, rSs, rstr "новгород"], rstr "нижний"], RE.bnd],
    rcat [RE.bnd, rstr "волгоград", RE.bnd],
    rcat [RE.bnd, rstr "воронеж", RE.bnd],
    rcat [RE.bnd, rstr "омск", RE.bnd],
    rcat [RE.bnd, rstr "иркутск", RE.bnd],
    rcat [RE.bnd, rstr "хабаровск", RE.bnd],
    rcat [ralts [rstr "вылет", rstr "вылетаем", rstr "летим", rstr "улетаем"],
      rSp, ralts [rstr "из", rstr "с"], rSp, rWp],
    rcat [ralts [rstr "из", rstr "с"], rSp, rWp, rSp,
      ralts [rstr "вылет", rstr "вылетаем", rstr "улетаем"]] ]

/-- Genitive month names used by the date patterns. -/
def monthGenitive : List RE :=
  [ rstr "января", rstr "февраля", rstr "марта", rstr "апреля", rstr "мая",
    rstr "июня", rstr "июля", rstr "августа", rstr "сентября", rstr "октября",
    rstr "ноября", rstr "декабря" ]

/-- Table `date_patterns` (slot 3, departure dates or month). -/
def datePatterns : List RE :=
  [ rcat [rD12, RE.lit '.', rD12,
      RE.opt (rcat [RE.lit '.', rD, rD, RE.opt rD, RE.opt rD])],
    rcat [rD12, rSp, ralts monthGenitive],
    ralts [RE.seq (rstr "январ") (rchars "еья"),
      RE.seq (rstr "феврал") (rchars "еья"),
      RE.seq (rstr "март") (RE.opt (rchars "еа")),
      RE.seq (rstr "апрел") (rchars "еья"),
      RE.seq (rstr "ма") (rchars "еяй"),
      RE.seq (rstr "июн") (rchars "еья"),
      RE.seq (rstr "июл") (rchars "еья"),
      RE.seq (rstr "август") (RE.opt (rchars "еа")),
      RE.seq (rstr "сентябр") (rchars "еья"),
      RE.seq (rstr "октябр") (rchars "еья"),
      RE.seq (rstr "ноябр") (rchars "еья"),
      RE.seq (rstr "декабр") (rchars "еья")],
    rcat [RE.opt (RE.seq (rstr "в") rSp),
      ralts [rstr "начале", rstr "середине", rstr "конце"], rSp,
      ralts (monthGenitive ++ [rstr "месяца"])],
    rcat [RE.opt (RE.seq (rstr "на") rSp),
      ralts [rstr "майские", rstr "новогодние", rstr "новый год",
        rstr "8 марта", rstr "23 февраля"]],
    ralts [rstr "завтра", rstr "послезавтра",
      rcat [rstr "через", rSp, rWp, rSp, rstr "дн"],
      rcat [rstr "через", rSp, rstr "неделю"],
      rcat [rstr "через", rSp, rstr "месяц"]],
    rcat [RE.opt (RE.seq (rstr "в") rSp),
      ralts [rstr "этом", rstr "следующем"], rSp, rstr "месяце"],
    rcat [RE.opt (RE.seq (rstr "в") rSp), rstr "ближайшее", rSp, rstr "время"],
    rcat [ralts [rstr "первой", rstr "второй"], rSp, rstr "половин", rchars "еы"] ]

/-- Table `nights_patterns` (slot 3, duration). -/
def nightsPatterns : List RE :=
  [ rcat [RE.many1 Char.isDigit, rSs,
      ralts [rstr "ноч", rstr "дн", rstr "день", rstr "дней", rstr "ночей"]],
    rcat [RE.opt (RE.seq (rstr "на") rSp),
      ralts [rstr "неделю", rstr "недельку", rstr "две недели", rstr "2 недели"]],
    rcat [RE.bnd, rstr "недел", rchars "яюи", RE.bnd],
    rcat [RE.opt (RE.seq (rstr "на") rSp), ralts [rstr "выходные", rstr "уикенд"]],
    rcat [RE.opt (RE.seq (rstr "с") rSp), rD12,
      RE.opt (rcat [RE.lit '.', rD12]), RE.opt rSp,
      ralts [rstr "по", rstr "-"], RE.opt rSp, rD12] ]

/-- Table `travelers_patterns` (slot 4, traveler composition). -/
def travelersPatterns : List RE :=
  [ ralts [RE.seq (rstr "взрослы") (rchars "хй"),
      RE.seq (rstr "взр") (RE.opt (RE.lit '.')), rstr "adults"],
    ralts [RE.seq (rstr "дет")
        (RE.opt (ralts [rstr "ей", rstr "и", rstr "ьми", rstr "ям"])),
      RE.seq (rstr "ребен") (ralts [rstr "ок", rstr "ка"]), rstr "child"],
    rcat [RE.opt (RE.seq (rstr "я") rSp),
      ralts [rstr "один", rstr "одна", rstr "сам", rstr "одиночк"]],
    rcat [ralts [rstr "двое", rstr "два", rstr "две"], rSp,
      ralts [RE.seq (rstr "взрослы") (rchars "хй"), rstr "человек",
        RE.seq (rstr "чел") (RE.opt (RE.lit '.'))]],
    rcat [ralts [rstr "трое", rstr "три", rstr "четыре", rstr "пять", rstr "шесть"],
      rSp,
      ralts [RE.seq (rstr "взрослы") (rchars "хй"), rstr "человек",
        RE.seq (rstr "чел") (RE.opt (RE.lit '.'))]],
    rcat [RE.many1 Char.isDigit, rSs,
      ralts [RE.seq (rstr "взрослы") (rchars "хй"), rstr "человек",
        RE.seq (rstr "чел") (RE.opt (RE.lit '.')), rstr "взр"]],
    rcat [RE.many1 Char.isDigit, rSs, rstr "в", rSs, RE.lit '+'],
    rcat [RE.opt (RE.seq (rstr "с") rSp),
      ralts [rstr "мужем", rstr "женой", rstr "парнем", rstr "девушкой",
        rstr "подругой", rstr "другом"]],
    ralts [rcat [rstr "вдво", rchars "её", rstr "м"],
      rcat [rstr "втро", rchars "её", rstr "м"],
      rstr "вчетвером", rstr "впятером"],
    ralts [rcat [rstr "семь", rchars "её", rstr "й"],
      rstr "компанией", rstr "группой"],
    rcat [rstr "мы", rSp, rstr "с", rSp] ]

/-- Table `stars_patterns` (slot 5, explicit star rating). -/
def starsPatterns : List RE :=
  [ rcat [rD, rSs, ralts [rstr "звёзд", rstr "звезд", RE.lit '*', RE.lit '⭐']],
    RE.seq (ralts [rstr "пяти", rstr "четырёх", rstr "четырех",
      rstr "трёх", rstr "трех"]) (rstr "звёзд") ]

/-- Table `meal_patterns` (slot 5, explicit meal plan). -/
def mealPatterns : List RE :=
  [ ralts [rcat [rstr "вс", RE.opt (RE.lit 'ё'), rSs, rstr "включен"],
      rcat [rstr "all", rSs, rstr "incl"],
      RE.seq (rchars "ауа") (RE.lit 'и'),
      RE.seq (rstr "ai") RE.bnd, RE.seq (rstr "uai") RE.bnd],
    ralts [rstr "полупансион", rcat [rstr "half", rSs, rstr "board"],
      RE.seq (rstr "hb") RE.bnd],
    ralts [rcat [rstr "полный", rSs, rstr "пансион"],
      rcat [rstr "full", rSs, rstr "board"], RE.seq (rstr "fb") RE.bnd],
    rcat [RE.opt (RE.seq (rstr "только") rSs), rstr "завтрак",
      RE.opt (rchars "аи"), RE.bnd],
    rcat [RE.bnd, ralts [rstr "bb", rstr "ro", rstr "ob"], RE.bnd] ]

/-- Table `skip_quality_patterns` (slot 5, explicit "don't care" skip). -/
def skipQualityPatterns : List RE :=
  [ rcat [ralts [rstr "любой", rstr "любую", rstr "любое", rstr "любые"], rSp,
      ralts [rstr "отель", rstr "категори", rstr "звёзд", rstr "звезд",
        rstr "питани"]],
    RE.seq (ralts [rstr "любой", rstr "любая", rstr "любое"]) RE.bnd,
    ralts [rcat [rstr "без", rSs, rstr "разницы"],
      rcat [rstr "всё", rSs, rstr "равно"],
      rcat [rstr "все", rSs, rstr "равно"]],
    ralts [rcat [rstr "не", rSs, rstr "важно"], rstr "неважно",
      rcat [rstr "не", rSs, rstr "принципиально"]],
    rcat [rstr "на", rSp,
      ralts [RE.seq (rstr "ваш") (RE.opt (RE.lit 'е')),
        RE.seq (rstr "тво") (RE.opt (RE.lit 'ё')),
        RE.seq (rstr "тво") (RE.opt (RE.lit 'е'))],
      rSp, rstr "усмотрени"],
    ralts [rcat [rstr "рассмотрим", rSp, rstr "вариант"],
      rcat [rstr "покажит", RE.opt (RE.lit 'е'), rSp, rstr "что", rSp, rstr "есть"],
      rcat [rstr "какие", rSp, rstr "есть"]],
    ralts [rcat [rstr "покажит", RE.opt (RE.lit 'е'), rSp, rstr "что-нибудь"],
      rcat [rstr "что", rSp, rstr "посоветуете"]] ]

/-- Table `hotel_brand_patterns` (slot 5, brand or named hotel). -/
def hotelBrandPatterns : List RE :=
  [ rcat [RE.bnd,
      ralts [rstr "rixos", rstr "hilton", rstr "delphin", rstr "swissotel",
        rstr "kempinski", rstr "calista", rstr "titanic", rstr "gloria",
        rstr "regnum", rcat [rstr "maxx", rSs, rstr "royal"]], RE.bnd],
    rcat [RE.bnd,
      ralts [rstr "iberostar", rstr "marriott", rstr "sheraton", rstr "radisson",
        rstr "accor", rstr "hyatt", rstr "intercontinental"], RE.bnd],
    rcat [RE.opt (RE.seq (rstr "в") rSp), rstr "отел", rchars "ьеи", rSp,
      RE.cls (fun c => inRange 'а' 'я' c || inRange 'А' 'Я' c ||
        inRange 'a' 'z' c || inRange 'A' 'Z' c),
      RE.cls (fun c => inRange 'а' 'я' c || inRange 'А' 'Я' c ||
        inRange 'a' 'z' c || inRange 'A' 'Z' c),
      RE.cls (fun c => inRange 'а' 'я' c || inRange 'А' 'Я' c ||
        inRange 'a' 'z' c || inRange 'A' 'Z' c),
      RE.many (fun c => inRange 'а' 'я' c || inRange 'А' 'Я' c ||
        inRange 'a' 'z' c || inRange 'A' 'Z' c)] ]

/-- Phrases the assistant uses when raising the quality-check question
(the `qc_asked` test). -/
def qcAskedPhrases : List String :=
  [ "категорию отеля", "тип питания", "звёзд", "питание предпочитаете",
    "какой отель", "звёздность", "всё включено" ]

/-!  The slot gate `_check_cascade_slots`. -/

/-- One conversation message (role + text content). -/
structure Msg where
  role : String
  content : String
deriving DecidableEq

/-- Python `l[-n:]`: the last `n` elements. -/
def lastSlice (n : Nat) (l : List Msg) : List Msg := l.drop (l.length - n)

/-- User messages considered by the gate: the last 20 history entries,
keeping `content` of those with role `user` and truthy content. -/
def userMessages (hist : List Msg) : List String :=
  (lastSlice 20 hist).filterMap
    (fun m => if m.role == "user" && m.content != "" then some m.content else none)

/-- Assistant messages considered by the `qc_asked` test: last 10 entries. -/
def assistantMessages (hist : List Msg) : List String :=
  (lastSlice 10 hist).filterMap
    (fun m => if m.role == "assistant" && m.content != "" then some m.content else none)

/-- Case-folded concatenation of the considered user messages
(`" ".join(user_messages).lower()`). -/
def userTextOf (hist : List Msg) : List Char :=
  (pyLower (String.intercalate " " (userMessages hist))).data

/-- Last user message, case-folded (`user_messages[-1].lower() if ... else ""`). -/
def lastUserMsgOf (hist : List Msg) : List Char :=
  match (userMessages hist).getLast? with
  | some m => (pyLower m).data
  | none => []

/-- Star-rating mention over the joined user text (`has_stars`). -/
def hasStars (ut : List Char) : Bool := starsPatterns.any (fun r => reSearch r ut)

/-- Meal-plan mention over the joined user text (`has_meal`). -/
def hasMeal (ut : List Char) : Bool := mealPatterns.any (fun r => reSearch r ut)

/-- Brand / named-hotel mention over the joined user text (`has_brand`). -/
def hasBrand (ut : List Char) : Bool := hotelBrandPatterns.any (fun r => reSearch r ut)

/-- Skip-quality phrase, searched only in the most recent user message
(`has_skip`). -/
def hasSkip (lastMsg : List Char) : Bool :=
  skipQualityPatterns.any (fun r => reSearch r lastMsg)

/-- Quality check passed: explicit stars OR meal OR a skip phrase in the last
user message OR a brand mention (`quality_check_passed`). -/
def qualityCheckPassed (hist : List Msg) : Bool :=
  hasStars (userTextOf hist) || hasMeal (userTextOf hist) ||
    hasSkip (lastUserMsgOf hist) || hasBrand (userTextOf hist)

/-- Has the assistant already raised the quality question? (`qc_asked`). -/
def qcAsked (hist : List Msg) : Bool :=
  let at2 := (pyLower (String.intercalate " " (assistantMessages hist))).data
  qcAskedPhrases.any (fun p => isSub p.data at2)

/-- Model of `_check_cascade_slots`: returns `(is_complete, missing_slots)`
with the missing slots in cascade priority order. -/
def checkCascadeSlots (hist : List Msg) : Bool × List String :=
  let ut := userTextOf hist
  let missingDeparture :=
    if departurePatterns.any (fun r => reSearch r ut) then [] else ["город вылета"]
  let hasDate := datePatterns.any (fun r => reSearch r ut)
  let hasNights := nightsPatterns.any (fun r => reSearch r ut)
  let missingDates :=
    if !hasDate && !hasNights then ["даты/месяц и длительность"]
    else if !hasDate then ["даты/месяц вылета"]
    else []
  let missingTravelers :=
    if travelersPatterns.any (fun r => reSearch r ut) then []
    else ["состав путешественников"]
  let missingQuality :=
    if qualityCheckPassed hist then []
    else if qcAsked hist then []
    else ["категорию отеля и тип питания (Quality Check)"]
  let missing := missingDeparture ++ missingDates ++ missingTravelers ++ missingQuality
  (missing.isEmpty, missing)

/-!  Calendar arithmetic.  `DD.MM.YYYY` wire dates are represented by their
civil day number; the encoding below is the standard days-from-civil
computation, executable on `Nat`. -/

/-- Day number of the civil date `y-m-d` (days since 0000-03-01, with the
usual era/400-year decomposition).  Valid for `y ≥ 1`. -/
def daysFromCivil (y m d : Nat) : Nat :=
  let y2 := if m ≤ 2 then y - 1 else y
  let era := y2 / 400
  let yoe := y2 % 400
  let mp := if m > 2 then m - 3 else m + 9
  let doy := (153 * mp + 2) / 5 + d - 1
  let doe := yoe * 365 + yoe / 4 - yoe / 100 + doy
  era * 146097 + doe

/-- Inverse of `daysFromCivil`: the `(y, m, d)` triple of a day number. -/
def civilFromDays (z : Nat) : Nat × Nat × Nat :=
  let era := z / 146097
  let doe := z % 146097
  let yoe := (doe - doe / 1460 + doe / 36524 - doe / 146096) / 365
  let y := yoe + era * 400
  let doy := doe - (365 * yoe + yoe / 4 - yoe / 100)
  let mp := (5 * doy + 2) / 153
  let d := doy - (153 * mp + 2) / 5 + 1
  let m := if mp < 10 then mp + 3 else mp - 9
  (if m ≤ 2 then y + 1 else y, m, d)

/-- Arguments of the `search_tours` tool that the dispatcher inspects.
Dates carry their civil day number (see the module comment); `regions`,
`subregions` and `hotels` only matter through Python truthiness, and the many
remaining pass-through parameters (stars, meal, prices, ...) are forwarded
untouched by the dispatcher, so they are not represented. -/
structure SearchArgs where
  departure : Option Int
  country : Option Int
  datefrom : Option Nat
  dateto : Option Nat
  nightsfrom : Option Int
  nightsto : Option Int
  regions : Option String
  subregions : Option String
  hotels : Option String
deriving DecidableEq

/-- Rebuild the args with new dates (the dispatcher mutates only
`args["datefrom"]` / `args["dateto"]` in the date block). -/
def setDates (a : SearchArgs) (df dt : Option Nat) : SearchArgs :=
  ⟨a.departure, a.country, df, dt, a.nightsfrom, a.nightsto,
    a.regions, a.subregions, a.hotels⟩

/-- Rebuild the args with a new `nightsfrom`. -/
def setNightsfrom (a : SearchArgs) (n : Int) : SearchArgs :=
  ⟨a.departure, a.country, a.datefrom, a.dateto, some n, a.nightsto,
    a.regions, a.subregions, a.hotels⟩

/-- Python truthiness of an optional integer (`None` and `0` are falsy). -/
def pyTruthyInt : Option Int → Bool
  | none => false
  | some n => n != 0

/-- Python `x or d` for an optional integer (falsy values fall through). -/
def orFalsy (o : Option Int) (d : Int) : Int :=
  match o with
  | some n => if n == 0 then d else n
  | none => d

/-- Python truthiness of an optional string (`None` and `""` are falsy). -/
def pyTruthyStr : Option String → Bool
  | none => false
  | some s => s != ""

/-- Model of the date-window normalization block of `_dispatch_function`
(`search_tours` branch, Fix 1B and Fix P6), for argument sets whose supplied
dates parse (the `strptime` failure branch leaves the arguments unchanged and
is outside this model).  `today` is `datetime.now()` truncated to midnight.

Mirrors the source: (1) absent `dateto` becomes `datefrom + 2`; (2) a `dateto`
equal to `datefrom` is widened to `datefrom + 2`; (3) with an explicit night
count, a span of at least 4 days within 2 of the effective night count is
clamped to `datefrom + 2`; then (Fix P6) a past `datefrom` is shifted to
tomorrow and `dateto` is moved to tomorrow `+ 2` if it would precede it. -/
def normalizeDateWindow (today : Nat) (a : SearchArgs) : SearchArgs :=
  match a.datefrom with
  | none => a
  | some df =>
    let hasSpecificNights := a.nightsfrom.isSome || a.nightsto.isSome
    let dt1 : Nat :=
      match a.dateto with
      | none => df + 2
      | some dt =>
        if dt == df then df + 2
        else if hasSpecificNights then
          let delta : Int := (dt : Int) - (df : Int)
          let effectiveNights : Int := orFalsy a.nightsto (orFalsy a.nightsfrom 7)
          if 4 ≤ delta && (delta - effectiveNights).natAbs ≤ 2 then df + 2 else dt
        else dt
    if df < today then
      let ndf := today + 1
      let ndt := if dt1 < ndf then ndf + 2 else dt1
      setDates a (some ndf) (some ndt)
    else setDates a (some df) (some dt1)

/-- Model of the nights auto-correction (Fix P5): `nightsfrom < 3` is raised
to 3, and if the originally supplied `nightsfrom` exceeds `nightsto`, then
`nightsfrom` is overwritten with `nightsto`.  Both tests read the values
captured before any correction, exactly as the source does. -/
def normalizeNights (a : SearchArgs) : SearchArgs :=
  let nf := a.nightsfrom
  let nt := a.nightsto
  let a1 := match nf with
    | some f => if f < 3 then setNightsfrom a 3 else a
    | none => a
  match nf, nt with
  | some f, some t => if t < f then setNightsfrom a1 t else a1
  | _, _ => a1

/-- Resort pattern table of the region check (Fix P3): each entry pairs the
resort regex with the country name used in the hint. -/
def resortPatterns : List (RE × String) :=
  [ (rcat [RE.bnd, ralts [rstr "кисловодск", rstr "пятигорск", rstr "ессентуки",
      rstr "железноводск", rcat [rstr "минеральн", rWs, rSs, rstr "вод"]], RE.bnd],
      "России"),
    (rcat [RE.bnd, ralts [rstr "сочи", rstr "адлер",
      rcat [rstr "красн", rWs, rSs, rstr "полян"]], RE.bnd], "России"),
    (rcat [RE.bnd, ralts [RE.seq (rstr "анап") (rchars "аыуе"), rstr "геленджик",
      rstr "новоросс"], RE.bnd], "России"),
    (rcat [RE.bnd, ralts [rstr "крым", RE.seq (rstr "ялт") (rchars "аыуе"),
      RE.seq (rstr "алушт") (rchars "аыуе"), rstr "севастопол", rstr "феодоси",
      rstr "судак", rstr "евпатори"], RE.bnd], "России"),
    (rcat [RE.bnd, ralts [rstr "калининград", rstr "светлогорск",
      rstr "зеленоградск"], RE.bnd], "России"),
    (rcat [RE.bnd, ralts [rstr "пхукет", rstr "пукет"], RE.bnd], "Таиланда"),
    (rcat [RE.bnd, ralts [RE.seq (rstr "паттай") (rchars "яеу"), rstr "паттая"],
      RE.bnd], "Таиланда"),
    (rcat [RE.bnd, rstr "самуи", RE.bnd], "Таиланда"),
    (rcat [RE.bnd, rstr "краби", RE.bnd], "Таиланда"),
    (rcat [RE.bnd, rcat [rstr "хуа", rSs, rstr "хин"], RE.bnd], "Таиланда"),
    (rcat [RE.bnd, ralts [rcat [rstr "алан", rchars "ьи", rstr "я"],
      rstr "аланья"], RE.bnd], "Турции"),
    (rcat [RE.bnd, ralts [rcat [rstr "антал", RE.opt (RE.lit 'ь'), rstr "я"],
      rstr "анталия"], RE.bnd], "Турции"),
    (rcat [RE.bnd, rstr "кемер", RE.bnd], "Турции"),
    (rcat [RE.bnd, rstr "сиде", RE.bnd], "Турции"),
    (rcat [RE.bnd, rstr "белек", RE.bnd], "Турции"),
    (rcat [RE.bnd, rstr "бодрум", RE.bnd], "Турции"),
    (rcat [RE.bnd, rstr "мармарис", RE.bnd], "Турции"),
    (rcat [RE.bnd, ralts [rstr "фетхие", rstr "фетие"], RE.bnd], "Турции"),
    (rcat [RE.bnd, rstr "кушадас", RE.bnd], "Турции"),
    (rcat [RE.bnd, rstr "стамбул", RE.bnd], "Турции"),
    (rcat [RE.bnd, ralts [rstr "шарм", rstr "шарм-эль-шейх",
      rcat [rstr "шарм", rSs, rstr "эль", rSs, rstr "шейх"]], RE.bnd], "Египта"),
    (rcat [RE.bnd, RE.seq (rstr "хургад") (rchars "аыуе"), RE.bnd], "Египта"),
    (rcat [RE.bnd, rcat [rstr "марса", rSs, rstr "алам"], RE.bnd], "Египта"),
    (rcat [RE.bnd, rstr "дахаб", RE.bnd], "Египта"),
    (rcat [RE.bnd, ralts [rstr "дубай", rstr "дубаи"], RE.bnd], "ОАЭ"),
    (rcat [RE.bnd, rcat [rstr "абу",
      RE.many (fun c => pyIsSpace c || c == '-'), rstr "даби"], RE.bnd], "ОАЭ"),
    (rcat [RE.bnd, RE.seq (rstr "шардж") (rchars "аеу"), RE.bnd], "ОАЭ"),
    (rcat [RE.bnd, rcat [rstr "рас", RE.many (fun c => pyIsSpace c || c == '-'),
      rstr "аль", RE.many (fun c => pyIsSpace c || c == '-'), rstr "хайм"],
      RE.bnd], "ОАЭ"),
    (rcat [RE.bnd, ralts [rstr "фукуок", rcat [rstr "фу", rSs, rstr "куок"]],
      RE.bnd], "Вьетнама"),
    (rcat [RE.bnd, ralts [rstr "нячанг", rcat [rstr "ня", rSs, rstr "чанг"]],
      RE.bnd], "Вьетнама"),
    (rcat [RE.bnd, ralts [rstr "фантьет", rcat [rstr "фан", rSs, rstr "тьет"],
      rstr "муйне", rcat [rstr "муй", rSs, rstr "не"]], RE.bnd], "Вьетнама"),
    (rcat [RE.bnd, ralts [rstr "коломбо", RE.seq (rstr "бентот") (rchars "аы"),
      RE.seq (rstr "хиккадув") (rchars "аы"),
      RE.seq (rstr "унаватун") (rchars "аы")], RE.bnd], "Шри-Ланки"),
    (rcat [RE.bnd, ralts [rstr "мале", rstr "маафуш"], RE.bnd], "Мальдив"),
    (rcat [RE.bnd, ralts [rstr "варадеро", RE.seq (rstr "гаван") (rchars "аы")],
      RE.bnd], "Кубы"),
    (rcat [RE.bnd, ralts [rcat [rstr "пунта",
        RE.many (fun c => pyIsSpace c || c == '-'), rstr "кан", rchars "аы"],
      rcat [rstr "бока", RE.many (fun c => pyIsSpace c || c == '-'),
        rstr "чик", rchars "аы"]], RE.bnd], "Доминиканы") ]

/-- First resort pattern matching the joined user text, with its country hint
(`mentioned_resort`); `none` when no resort is mentioned. -/
def resortHit (hist : List Msg) : Option String :=
  (resortPatterns.filterMap
    (fun rc => if reSearch rc.1 (userTextOf hist) then some rc.2 else none)).head?

/-- Canned clarifying question for a missing cascade slot (`nudge_map`,
including the `.get` default for an unknown slot name). -/
def nudgeMap (slot : String) : String :=
  if slot == "город вылета" then "\x27Из какого города планируете вылет?\x27"
  else if slot == "даты/месяц и длительность" then
    "\x27Когда планируете поездку и на сколько ночей?\x27"
  else if slot == "даты/месяц вылета" then
    "\x27В каком месяце планируете вылет?\x27"
  else if slot == "состав путешественников" then
    "\x27Сколько взрослых едет и будут ли с вами дети?\x27"
  else if slot == "категорию отеля и тип питания (Quality Check)" then
    "\x27Какую категорию отеля и тип питания предпочитаете?\x27"
  else "Уточни у клиента: " ++ slot

/-- Outcome of the `search_tours` branch of `_dispatch_function`:
either one of the two structured in-band validation errors, or submission of
the (normalized) arguments to the backend. -/
inductive SearchOutcome
  | resortError (countryHint : String)
  | cascadeError (slot : String) (nudge : String)
  | submit (a : SearchArgs)
deriving DecidableEq

/-- Steps of the `search_tours` branch after the resort check: the blocking
cascade-completeness check, then the nights auto-correction and submission. -/
def afterResortCheck (hist : List Msg) (a : SearchArgs) : SearchOutcome :=
  let cm := checkCascadeSlots hist
  if !cm.1 then
    let firstMissing := cm.2.headD ""
    SearchOutcome.cascadeError firstMissing (nudgeMap firstMissing)
  else
    SearchOutcome.submit (normalizeNights a)

/-- Model of the `search_tours` branch of `_dispatch_function`: date-window
normalization, then the resort-without-region check (only when `regions`,
`subregions` and `hotels` are all falsy), then the cascade gate, then the
nights correction and submission. -/
def dispatchSearchTours (today : Nat) (hist : List Msg) (a0 : SearchArgs) :
    SearchOutcome :=
  let a := normalizeDateWindow today a0
  if !pyTruthyStr a.regions && !pyTruthyStr a.subregions && !pyTruthyStr a.hotels then
    match resortHit hist with
    | some countryHint => SearchOutcome.resortError countryHint
    | none => afterResortCheck hist a
  else afterResortCheck hist a

/-!  Helpers `_safe_int` / `_safe_float` and the date helpers of the card
mappers. -/

/-- Loosely-typed backend field value: the TourVisor API returns numbers as
strings, ints, or missing values.  Fractional numbers only ever reach the
model inside strings, where `int(float(s))` truncates them. -/
inductive PyNum
  | none
  | str (s : String)
  | int (n : Int)
deriving DecidableEq

/-- Digits-only parse of a nonempty character list. -/
def digitsToNat : List Char → Option Nat
  | [] => Option.none
  | cs =>
    if cs.all Char.isDigit then
      some (cs.foldl (fun acc c => acc * 10 + (c.toNat - 48)) 0)
    else Option.none

/-- Truncating parse of an unsigned decimal (`int(float(cs))` for
`digits[.digits]`). -/
def parseUnsignedFloatTrunc (cs : List Char) : Option Nat :=
  let ip := cs.takeWhile Char.isDigit
  match cs.drop ip.length with
  | [] => if ip.isEmpty then Option.none else some ((digitsToNat ip).getD 0)
  | '.' :: frac =>
    if frac.all Char.isDigit && (!ip.isEmpty || !frac.isEmpty) then
      some ((digitsToNat ip).getD 0)
    else Option.none
  | _ => Option.none

/-- Model of Python `int(float(s))` (truncation toward zero) on the decimal
grammar the backend emits; `none` when `float(s)` would raise. -/
def pyFloatTruncToInt (s : String) : Option Int :=
  match s.data with
  | '-' :: rest => (parseUnsignedFloatTrunc rest).map (fun n => -(n : Int))
  | '+' :: rest => (parseUnsignedFloatTrunc rest).map (fun n => (n : Int))
  | cs => (parseUnsignedFloatTrunc cs).map (fun n => (n : Int))

/-- Model of `_safe_int`: `None` and `""` give the default, numbers are
truncated via `int(float(val))`, unparseable strings give the default. -/
def safeInt (v : PyNum) (default : Int) : Int :=
  match v with
  | .none => default
  | .int n => n
  | .str s => if s == "" then default else (pyFloatTruncToInt s).getD default

/-- Model of `_safe_float`: `None`/`""`/unparseable give `none`; a parseable
numeric value is represented by its source value (the claims never inspect
the converted float itself, only presence). -/
def safeFloatModel (v : PyNum) : Option PyNum :=
  match v with
  | .none => Option.none
  | .int n => some (PyNum.int n)
  | .str s =>
    if s == "" then Option.none
    else if (pyFloatTruncToInt s).isSome then some (PyNum.str s) else Option.none

/-- Python `val or default` for an optional string. -/
def pyOrStr (v : Option String) (d : String) : String :=
  match v with
  | some s => if s == "" then d else s
  | Option.none => d

/-- Python `str(val or "")` for a loosely-typed identifier field. -/
def pyNumOrEmptyStr (v : PyNum) : String :=
  match v with
  | .none => ""
  | .int n => if n == 0 then "" else toString n
  | .str s => s

/-- Model of `_parse_tv_date`: reorders `DD.MM.YYYY` into `YYYY-MM-DD`
without validating the parts. -/
def parseTvDate (s : String) : Option String :=
  if s == "" then Option.none
  else
    match s.splitOn "." with
    | [p0, p1, p2] => some (p2 ++ "-" ++ p1 ++ "-" ++ p0)
    | _ => Option.none

/-- Leap-year test of the Gregorian calendar. -/
def isLeapYear (y : Nat) : Bool := (y % 4 == 0 && y % 100 != 0) || y % 400 == 0

/-- Number of days in the given month. -/
def daysInMonth (y m : Nat) : Nat :=
  if m == 2 then (if isLeapYear y then 29 else 28)
  else if m == 4 || m == 6 || m == 9 || m == 11 then 30 else 31

/-- Validating parse of a `DD.MM.YYYY` string
(model of `datetime.strptime(s, "%d.%m.%Y")`). -/
def strptimeDMY (s : String) : Option (Nat × Nat × Nat) :=
  match s.splitOn "." with
  | [ds, ms, ys] =>
    match digitsToNat ds.data, digitsToNat ms.data, digitsToNat ys.data with
    | some d, some m, some y =>
      if 1 ≤ m && m ≤ 12 && 1 ≤ d && d ≤ daysInMonth y m then some (d, m, y)
      else Option.none
    | _, _, _ => Option.none
  | _ => Option.none

/-- Zero-pad to two digits. -/
def pad2 (n : Nat) : String := if n < 10 then "0" ++ toString n else toString n

/-- Zero-pad a year to four digits (`%Y`). -/
def pad4 (n : Nat) : String :=
  if n < 10 then "000" ++ toString n
  else if n < 100 then "00" ++ toString n
  else if n < 1000 then "0" ++ toString n
  else toString n

/-- ISO formatting `%Y-%m-%d`. -/
def formatISO (y m d : Nat) : String := pad4 y ++ "-" ++ pad2 m ++ "-" ++ pad2 d

/-- Model of `_calc_end_date`: parse a TourVisor `DD.MM.YYYY` date, add the
night count, format as ISO; `None` on a falsy input or a parse failure. -/
def calcEndDate (dateStr : String) (nights : Int) : Option String :=
  if dateStr == "" || nights == 0 then Option.none
  else
    match strptimeDMY dateStr with
    | Option.none => Option.none
    | some dmy =>
      let z : Int := (daysFromCivil dmy.2.2 dmy.2.1 dmy.1 : Int) + nights
      let c := civilFromDays z.toNat
      some (formatISO c.1 c.2.1 c.2.2)

/-- Meal-code dictionary `_MEAL_CODE_TO_RU`. -/
def mealCodeToRu : List (String × String) :=
  [ ("RO", "Без питания"), ("BB", "Только завтрак"), ("HB", "Завтрак и ужин"),
    ("HB+", "Полупансион+"), ("FB", "Полный пансион"), ("FB+", "Полный пансион+"),
    ("AI", "Всё включено"), ("UAI", "Ультра всё включено") ]

/-- Dictionary lookup (`dict.get`). -/
def lookupMealRu (code : String) : Option String :=
  (mealCodeToRu.filterMap (fun p => if p.1 == code then some p.2 else Option.none)).head?

/-- Raw hot-tour record from `get_hot_tours`, with the loose field types the
backend delivers. -/
structure HotTour where
  hotelname : Option String
  hotelstars : PyNum
  hotelrating : PyNum
  countryname : Option String
  regionname : Option String
  flydate : String
  nights : PyNum
  price_per_person : PyNum
  meal : Option String
  picturelink : Option String
  fulldesclink : Option String
  tourid : PyNum
  departurename : Option String
  operatorname : Option String
deriving DecidableEq

/-- Presentation card shape produced by `_map_hot_tour_to_card` (field order
follows the source dict literal). -/
structure TourCard where
  hotel_name : String
  hotel_stars : Int
  hotel_rating : Option PyNum
  country : String
  resort : String
  region : String
  date_from : Option String
  date_to : Option String
  nights : Int
  price : Int
  price_per_person : Int
  food_type : String
  meal_description : String
  room_type : String
  image_url : Option String
  hotel_link : String
  id : String
  departure_city : String
  is_hotel_only : Bool
  flight_included : Bool
  operator : String
deriving DecidableEq

/-- Model of `_map_hot_tour_to_card`: hot-deal prices are per person, so the
card's `price` and `price_per_person` both receive the backend's
`price_per_person` figure, and hot deals always carry a flight. -/
def mapHotTourToCard (t : HotTour) : TourCard :=
  let nights := safeInt t.nights 7
  let pricePp := safeInt t.price_per_person 0
  let mealCode := pyOrStr t.meal ""
  let mealRu := (lookupMealRu (String.mk (pyStrip mealCode.data))).getD mealCode
  ⟨ pyOrStr t.hotelname "Отель",
    safeInt t.hotelstars 0,
    safeFloatModel t.hotelrating,
    pyOrStr t.countryname "",
    pyOrStr t.regionname "",
    pyOrStr t.regionname "",
    parseTvDate t.flydate,
    calcEndDate t.flydate nights,
    nights,
    pricePp,
    pricePp,
    mealCode,
    mealRu,
    "Standard",
    t.picturelink,
    pyOrStr t.fulldesclink "#",
    pyNumOrEmptyStr t.tourid,
    pyOrStr t.departurename "Москва",
    false,
    true,
    pyOrStr t.operatorname "" ⟩

/-!  Model of `_execute_function`.

`json.loads(arguments)` runs BEFORE the protective `try` block of the source;
`LoadsResult` records its behavior on the given argument string: `.ok` when
`arguments` is empty (then `args = \x7b\x7d`) or parses as JSON,
`.raisesError` when it is nonempty and malformed, in which case the exception
leaves `_execute_function` uncaught.  `DispatchResult` records the behavior of
the awaited `_dispatch_function` call: a result value, one of the three
business errors (`TourIdExpiredError`, `SearchNotFoundError`,
`NoResultsError`), or any other exception. -/
inductive LoadsResult
  | ok
  | raisesError (e : String)
deriving DecidableEq

/-- Behavior of the inner `_dispatch_function` call. -/
inductive DispatchResult
  | ok (resultStr : String)
  | businessError (msg : String)
  | unexpectedError (msg : String)
deriving DecidableEq

/-- Payload of a `function_call_output` item: the serialized result, or the
serialized error object (`json.dumps` of a dict with an `error` field). -/
inductive OutputPayload
  | success (resultStr : String)
  | errorField (msg : String)
deriving DecidableEq

/-- One `function_call_output` item. -/
structure FuncCallOutput where
  type : String
  call_id : String
  output : OutputPayload
deriving DecidableEq

/-- Model of `_execute_function`: `Except.error` is an exception escaping the
function, `Except.ok` an in-band tool result. -/
def executeFunction (loads : LoadsResult) (dispatch : DispatchResult)
    (callId : String) : Except String FuncCallOutput :=
  match loads with
  | .raisesError e => Except.error e
  | .ok =>
    match dispatch with
    | .ok r => Except.ok ⟨"function_call_output", callId, OutputPayload.success r⟩
    | .businessError m =>
      Except.ok ⟨"function_call_output", callId,
        OutputPayload.errorField ("Ошибка: " ++ m)⟩
    | .unexpectedError m =>
      Except.ok ⟨"function_call_output", callId,
        OutputPayload.errorField ("Неожиданная ошибка: " ++ m)⟩

/-!  Skeleton of the non-streaming `chat` orchestrator loop.

The model call is an external collaborator; a turn is driven by the scripted
list of its responses, one per iteration.  `ModelResp.empty` is a response
with no output items and no text, `ModelResp.text t` a response whose only
content is the final text `t`, `ModelResp.funcCalls` a response carrying tool
calls.  The modelled state is exactly the per-turn mutable data the claims
are about: the shared retry counter `empty_retries` (starting at 0 each
turn), the iteration budget (15), and counts of model calls and of injected
promised-action corrections. -/
inductive ModelResp
  | funcCalls
  | empty
  | text (t : String)
deriving DecidableEq

/-- Result of one `chat` turn: the returned text, the number of model calls
made, and the number of synthetic promised-action corrections injected. -/
structure TurnResult where
  result : String
  modelCalls : Nat
  injections : Nat
deriving DecidableEq

/-- Terminal message when the iteration cap is exhausted. -/
def maxIterationsMsg : String := "Ошибка: превышено количество итераций Function Calling"

/-- Give-up message after repeated empty responses. -/
def emptyGiveUpMsg : String :=
  "Извините, не удалось обработать запрос. Попробуйте переформулировать."

/-- Give-up message after repeated self-moderation responses. -/
def selfModGiveUpMsg : String :=
  "Извините, произошла ошибка. Попробуйте переформулировать запрос или начните новый чат."

/-- One-turn loop of `chat` (anomaly-handling skeleton): fuel is the
remaining iteration budget, `er` the shared `empty_retries` counter.
Returns `none` if the response script runs out before the turn ends. -/
def goChat : List ModelResp → Nat → Nat → Nat → Nat → Option TurnResult
  | _, 0, _, calls, inj => some ⟨maxIterationsMsg, calls, inj⟩
  | [], _ + 1, _, _, _ => Option.none
  | r :: rest, n + 1, er, calls, inj =>
    match r with
    | .funcCalls => goChat rest n er (calls + 1) inj
    | .empty =>
      if er + 1 ≥ 3 then some ⟨emptyGiveUpMsg, calls + 1, inj⟩
      else goChat rest n (er + 1) (calls + 1) inj
    | .text t =>
      if !t.isEmpty && isSelfModeration t then
        if er + 1 ≥ 3 then some ⟨selfModGiveUpMsg, calls + 1, inj⟩
        else goChat rest n (er + 1) (calls + 1) inj
      else if !t.isEmpty && isPromisedSearch t then
        if er + 1 ≥ 2 then some ⟨dedupResponse t, calls + 1, inj⟩
        else goChat rest n (er + 1) (calls + 1) (inj + 1)
      else some ⟨dedupResponse t, calls + 1, inj⟩

/-- A full `chat` turn: iteration budget 15, `empty_retries` reset to 0. -/
def runChat (script : List ModelResp) : Option TurnResult :=
  goChat script 15 0 0 0

/-!  Theorems. -/

/-- C10: every presentation card produced from a hot-deals retrieval has its
price equal to its per-person price (the backend's per-person figure), its
flight-included flag true and its hotel-only flag false, for every backend
tour record. -/
theorem c10_hot_tour_card_constants (t : HotTour) :
    (mapHotTourToCard t).price = (mapHotTourToCard t).price_per_person ∧
    (mapHotTourToCard t).price = safeInt t.price_per_person 0 ∧
    (mapHotTourToCard t).flight_included = true ∧
    (mapHotTourToCard t).is_hotel_only = false :=
  ⟨rfl, rfl, rfl, rfl⟩

/-- C3 counterexample: when the argument string is nonempty and malformed,
`json.loads(arguments)` — which runs before the protective `try` block —
raises, and the exception escapes `_execute_function`; so tool execution does
not return an in-band tool result for every argument string. -/
theorem c3_counterexample :
    executeFunction (LoadsResult.raisesError "Expecting value: line 1 column 1 (char 0)")
      (DispatchResult.ok "result") "call_1" =
      Except.error "Expecting value: line 1 column 1 (char 0)" := rfl

/-- C3 (amended): for every tool dispatch behavior and every argument string
that is empty or parses as JSON, tool execution returns an in-band
`function_call_output` and never raises, with business errors and unexpected
exceptions both rendered as a payload carrying an `error` field. -/
theorem c3_tool_errors_rendered_in_band (loads : LoadsResult)
    (dispatch : DispatchResult) (callId : String)
    (h : loads = LoadsResult.ok) :
    ∃ out : FuncCallOutput,
      executeFunction loads dispatch callId = Except.ok out ∧
      out.type = "function_call_output" ∧ out.call_id = callId ∧
      (∀ m, dispatch = DispatchResult.businessError m →
        out.output = OutputPayload.errorField ("Ошибка: " ++ m)) ∧
      (∀ m, dispatch = DispatchResult.unexpectedError m →
        out.output = OutputPayload.errorField ("Неожиданная ошибка: " ++ m)) := by
  subst h
  cases dispatch with
  | ok r =>
    refine ⟨_, rfl, rfl, rfl, ?_, ?_⟩
    · intro m hm; cases hm
    · intro m hm; cases hm
  | businessError m =>
    refine ⟨_, rfl, rfl, rfl, ?_, ?_⟩
    · intro m2 hm; cases hm; rfl
    · intro m2 hm; cases hm
  | unexpectedError m =>
    refine ⟨_, rfl, rfl, rfl, ?_, ?_⟩
    · intro m2 hm; cases hm
    · intro m2 hm; cases hm; rfl

/-- C3 witness: a concrete business error (expired search) is rendered
in-band. -/
theorem c3_witness :
    ∃ out : FuncCallOutput,
      executeFunction LoadsResult.ok (DispatchResult.businessError "Поиск не найден")
          "call_2" = Except.ok out ∧
      out.type = "function_call_output" ∧ out.call_id = "call_2" ∧
      (∀ m, DispatchResult.businessError "Поиск не найден" =
          DispatchResult.businessError m →
        out.output = OutputPayload.errorField ("Ошибка: " ++ m)) ∧
      (∀ m, DispatchResult.businessError "Поиск не найден" =
          DispatchResult.unexpectedError m →
        out.output = OutputPayload.errorField ("Неожиданная ошибка: " ++ m)) :=
  c3_tool_errors_rendered_in_band LoadsResult.ok
    (DispatchResult.businessError "Поиск не найден") "call_2" rfl

/-- C2 counterexample: the retry budget is a single shared counter, not
per-anomaly-kind counters.  After two empty-output retries, the first
self-censorship detection already terminates the turn with the fixed
apology on the third model call, never consuming the fourth (good) scripted
response — under separate counters the self-censorship budget would still be
untouched; whereas a lone first self-censorship detection retries normally. -/
theorem c2_counterexample :
    runChat [ModelResp.empty, ModelResp.empty,
        ModelResp.text "Я не могу обсуждать эту тему.",
        ModelResp.text "Вот подходящие варианты"] =
      some ⟨selfModGiveUpMsg, 3, 0⟩ ∧
    runChat [ModelResp.text "Я не могу обсуждать эту тему.",
        ModelResp.text "Вот подходящие варианты"] =
      some ⟨"Вот подходящие варианты", 2, 0⟩ :=
  ⟨by decide, by decide⟩

/-- C2 (amended): within one user turn a single shared retry counter, reset at
the start of the turn, covers empty-output, self-censorship and
promised-action detections (give-up bounds 3, 3 and 2 on the shared counter):
a detection of one anomaly kind consumes the retry budget of the others, in
either direction. -/
theorem c2_shared_retry_budget :
    runChat [ModelResp.empty, ModelResp.empty,
        ModelResp.text "Я не могу обсуждать эту тему.",
        ModelResp.text "Вот подходящие варианты"] =
      some ⟨selfModGiveUpMsg, 3, 0⟩ ∧
    runChat [ModelResp.text "Я не могу обсуждать эту тему.",
        ModelResp.empty, ModelResp.empty,
        ModelResp.text "Вот подходящие варианты"] =
      some ⟨emptyGiveUpMsg, 3, 0⟩ ∧
    runChat [ModelResp.text "Я не могу обсуждать эту тему.",
        ModelResp.text "Я не могу обсуждать эту тему.",
        ModelResp.empty, ModelResp.text "Вот подходящие варианты"] =
      some ⟨emptyGiveUpMsg, 3, 0⟩ ∧
    runChat [ModelResp.empty,
        ModelResp.text "Сейчас поищу туры для вас",
        ModelResp.text "Вот подходящие варианты"] =
      some ⟨dedupResponse "Сейчас поищу туры для вас", 2, 0⟩ :=
  ⟨by decide, by decide, by decide, by decide⟩

/-- C8: in a turn whose only anomaly is promised-action text, the first
detection triggers exactly one injected synthetic tool-result correction
followed by one more model call in the same turn, and on the second
consecutive detection the loop returns the (deduplicated) text as-is without
a third retry. -/
theorem c8_promised_action_retry (t u : String)
    (ht1 : t.isEmpty = false) (ht2 : isSelfModeration t = false)
    (ht3 : isPromisedSearch t = true)
    (hu1 : u.isEmpty = false) (hu2 : isSelfModeration u = false)
    (hu3 : isPromisedSearch u = false) :
    runChat [ModelResp.text t, ModelResp.text u] =
      some ⟨dedupResponse u, 2, 1⟩ ∧
    runChat [ModelResp.text t, ModelResp.text t] =
      some ⟨dedupResponse t, 2, 1⟩ := by
  constructor <;>
    simp [runChat, goChat, ht1, ht2, ht3, hu1, hu2, hu3]

/-- C8 witness: concrete promised-action text followed by a normal answer,
and the same promised-action text twice. -/
theorem c8_witness :
    runChat [ModelResp.text "Сейчас поищу туры для вас",
        ModelResp.text "Готово: вот варианты"] =
      some ⟨"Готово: вот варианты", 2, 1⟩ ∧
    runChat [ModelResp.text "Сейчас поищу туры для вас",
        ModelResp.text "Сейчас поищу туры для вас"] =
      some ⟨"Сейчас поищу туры для вас", 2, 1⟩ := by
  have h := c8_promised_action_retry "Сейчас поищу туры для вас"
    "Готово: вот варианты" (by decide) (by decide) (by decide)
    (by decide) (by decide) (by decide)
  exact ⟨h.1.trans (by decide), h.2.trans (by decide)⟩

/-- C6: on the two reference histories the slot gate behaves as specified —
the history whose only user message is "Хотим в Турцию" yields all four slots
missing with the departure city first (highest priority), and the history
containing "вылет из Москвы, 10-17 марта, два взрослых, всё включено" yields
a complete cascade with an empty missing list. -/
theorem c6_slot_gate_reference_histories :
    checkCascadeSlots [⟨"user", "Хотим в Турцию"⟩] =
      (false, ["город вылета", "даты/месяц и длительность",
        "состав путешественников", "категорию отеля и тип питания (Quality Check)"]) ∧
    checkCascadeSlots
        [⟨"user", "вылет из Москвы, 10-17 марта, два взрослых, всё включено"⟩] =
      (true, []) :=
  ⟨by decide, by decide⟩

/-- C7: a "don't care" skip phrase satisfies the quality slot only when it
occurs in the most recent user message — if a skip phrase appears in an
earlier user message but not in the last one, and no star-rating, meal-plan
or hotel-brand mention exists anywhere in the considered user messages, the
quality check is not marked as passed. -/
theorem c7_skip_only_in_last_message (hist : List Msg) (m : String)
    (hm : m ∈ (userMessages hist).dropLast)
    (hskipEarlier : hasSkip (pyLower m).data = true)
    (hstars : hasStars (userTextOf hist) = false)
    (hmeal : hasMeal (userTextOf hist) = false)
    (hbrand : hasBrand (userTextOf hist) = false)
    (hlast : hasSkip (lastUserMsgOf hist) = false) :
    qualityCheckPassed hist = false := by
  unfold qualityCheckPassed
  rw [hstars, hmeal, hbrand, hlast]
  rfl

/-- C7 witness: "любой" in an earlier user message, a last user message with
no skip phrase, no quality mentions anywhere. -/
theorem c7_witness :
    qualityCheckPassed [⟨"user", "любой"⟩, ⟨"user", "на море"⟩] = false :=
  c7_skip_only_in_last_message [⟨"user", "любой"⟩, ⟨"user", "на море"⟩]
    "любой" (by decide) (by decide) (by decide) (by decide) (by decide) (by decide)

/-- C4 counterexample: with `nightsfrom = 1` and `nightsto = 2` the
normalization yields `nightsfrom = 3` and `nightsto = 2`, so the submitted
arguments violate "the final nightsfrom does not exceed the final nightsto". -/
theorem c4_counterexample :
    (normalizeNights ⟨Option.none, Option.none, Option.none, Option.none,
        some 1, some 2, Option.none, Option.none, Option.none⟩).nightsfrom =
      some 3 ∧
    (normalizeNights ⟨Option.none, Option.none, Option.none, Option.none,
        some 1, some 2, Option.none, Option.none, Option.none⟩).nightsto =
      some 2 ∧
    ¬ ((3 : Int) ≤ 2) :=
  ⟨by decide, by decide, by decide⟩

/-- C4 (amended): after the nights normalization, whenever `nightsfrom` was
supplied and `nightsto` was absent or itself at least 3, the final
`nightsfrom` is at least 3 and does not exceed the (unchanged) `nightsto`
when both were supplied; in particular `nightsfrom = 1` becomes 3, and
`nightsfrom = 10` with `nightsto = 7` becomes `nightsfrom = 7`.  (When
`nightsto` is supplied below 3, the two corrections of the source cannot both
hold, and the second one is skipped, see the counterexample.) -/
theorem normalizeNights_preserves_nightsto (a : SearchArgs) :
    (normalizeNights a).nightsto = a.nightsto := by
  rcases a with ⟨dep, ctry, dfr, dto, nfr, nto, rg, srg, ht⟩
  unfold normalizeNights
  rcases nfr with _ | f
  · rfl
  · rcases nto with _ | tv
    · dsimp only
      split <;> rfl
    · dsimp only [setNightsfrom]
      split <;> split <;> rfl

theorem c4_nights_normalization (a : SearchArgs) (f : Int)
    (hf : a.nightsfrom = some f)
    (hnt : ∀ u, a.nightsto = some u → 3 ≤ u) :
    (∃ m, (normalizeNights a).nightsfrom = some m ∧ 3 ≤ m ∧
      (∀ u, a.nightsto = some u → m ≤ u)) ∧
    (normalizeNights a).nightsto = a.nightsto ∧
    (normalizeNights ⟨Option.none, Option.none, Option.none, Option.none,
        some 1, Option.none, Option.none, Option.none, Option.none⟩).nightsfrom =
      some 3 ∧
    (normalizeNights ⟨Option.none, Option.none, Option.none, Option.none,
        some 10, some 7, Option.none, Option.none, Option.none⟩).nightsfrom =
      some 7 := by
  refine ⟨?_, ?_, by decide, by decide⟩
  · cases a with
  | mk dep ctry dfr dto nfr nto rg srg ht =>
    cases nfr with
    | none => cases hf
    | some f2 =>
      cases hf
      cases nto with
      | none =>
        simp only [normalizeNights, setNightsfrom]
        split
        · exact ⟨3, rfl, by omega, by intro u hu; cases hu⟩
        · exact ⟨f, rfl, by omega, by intro u hu; cases hu⟩
      | some tval =>
        have h3 : 3 ≤ tval := hnt tval rfl
        simp only [normalizeNights, setNightsfrom]
        by_cases hlt : f < 3
        · rw [if_pos hlt]
          have : ¬ (tval < f) := by omega
          rw [if_neg this]
          exact ⟨3, rfl, by omega, by intro u hu; injection hu with h; omega⟩
        · rw [if_neg hlt]
          by_cases hgt : tval < f
          · rw [if_pos hgt]
            exact ⟨tval, rfl, by omega, by intro u hu; injection hu with h; omega⟩
          · rw [if_neg hgt]
            exact ⟨f, rfl, by omega, by intro u hu; injection hu with h; omega⟩
  · exact normalizeNights_preserves_nightsto a

/-- C4 witness: `nightsfrom = 5`, `nightsto = 8` satisfies the hypotheses and
the normalized arguments keep `3 ≤ nightsfrom ≤ nightsto`. -/
theorem c4_witness :
    (∃ m, (normalizeNights ⟨Option.none, Option.none, Option.none, Option.none,
        some 5, some 8, Option.none, Option.none, Option.none⟩).nightsfrom =
          some m ∧ 3 ≤ m ∧
      (∀ u, (⟨Option.none, Option.none, Option.none, Option.none,
          some 5, some 8, Option.none, Option.none, Option.none⟩ :
            SearchArgs).nightsto = some u → m ≤ u)) ∧
    (normalizeNights ⟨Option.none, Option.none, Option.none, Option.none,
        some 5, some 8, Option.none, Option.none, Option.none⟩).nightsto =
      (⟨Option.none, Option.none, Option.none, Option.none,
        some 5, some 8, Option.none, Option.none, Option.none⟩ :
          SearchArgs).nightsto ∧
    (normalizeNights ⟨Option.none, Option.none, Option.none, Option.none,
        some 1, Option.none, Option.none, Option.none, Option.none⟩).nightsfrom =
      some 3 ∧
    (normalizeNights ⟨Option.none, Option.none, Option.none, Option.none,
        some 10, some 7, Option.none, Option.none, Option.none⟩).nightsfrom =
      some 7 :=
  c4_nights_normalization
    ⟨Option.none, Option.none, Option.none, Option.none,
      some 5, some 8, Option.none, Option.none, Option.none⟩ 5 rfl
    (by intro u hu; injection hu with h; subst h; decide)

/-- Date normalization never touches the region/hotel filters. -/
theorem normalizeDateWindow_preserves_filters (today : Nat) (a : SearchArgs) :
    (normalizeDateWindow today a).regions = a.regions ∧
    (normalizeDateWindow today a).subregions = a.subregions ∧
    (normalizeDateWindow today a).hotels = a.hotels := by
  rcases a with ⟨dep, ctry, dfr, dto, nfr, nto, rg, srg, ht⟩
  unfold normalizeDateWindow
  rcases dfr with _ | df
  · exact ⟨rfl, rfl, rfl⟩
  · dsimp only [setDates]
    split <;> exact ⟨rfl, rfl, rfl⟩

/-- C1 counterexample: on the history "Едем в Кемер" with no region,
subregion or hotel filter the slot gate reports the cascade incomplete with
highest-priority missing slot "город вылета", yet the dispatcher returns the
resort-without-region error — which names no missing slot and carries no
canned slot question — because that check runs before the cascade gate. -/
theorem c1_counterexample :
    (checkCascadeSlots [⟨"user", "Едем в Кемер"⟩]).1 = false ∧
    (checkCascadeSlots [⟨"user", "Едем в Кемер"⟩]).2.headD "" = "город вылета" ∧
    dispatchSearchTours 0 [⟨"user", "Едем в Кемер"⟩]
      ⟨Option.none, Option.none, Option.none, Option.none, Option.none,
        Option.none, Option.none, Option.none, Option.none⟩ =
      SearchOutcome.resortError "Турции" ∧
    SearchOutcome.resortError "Турции" ≠
      SearchOutcome.cascadeError "город вылета" (nudgeMap "город вылета") :=
  ⟨by decide, by decide, by decide, by decide⟩

/-- C1 (amended): whenever the slot gate reports the cascade incomplete, the
dispatcher never submits the search to the backend; and whenever the
invocation is additionally not preempted by the earlier resort-without-region
check (a region, subregion or hotel filter is supplied, or no resort is
mentioned in the considered user messages), it returns the structured cascade
error naming only the single highest-priority missing slot together with its
canned clarifying question. -/
theorem c1_cascade_gate_blocks_search (today : Nat) (hist : List Msg)
    (a : SearchArgs)
    (hinc : (checkCascadeSlots hist).1 = false) :
    (∀ a2, dispatchSearchTours today hist a ≠ SearchOutcome.submit a2) ∧
    ((pyTruthyStr a.regions || pyTruthyStr a.subregions ||
        pyTruthyStr a.hotels) = true ∨ resortHit hist = Option.none →
      dispatchSearchTours today hist a =
        SearchOutcome.cascadeError ((checkCascadeSlots hist).2.headD "")
          (nudgeMap ((checkCascadeSlots hist).2.headD ""))) := by
  have hAfter : afterResortCheck hist (normalizeDateWindow today a) =
      SearchOutcome.cascadeError ((checkCascadeSlots hist).2.headD "")
        (nudgeMap ((checkCascadeSlots hist).2.headD "")) := by
    unfold afterResortCheck
    dsimp only
    rw [hinc]
    simp
  have key : (∃ ch, dispatchSearchTours today hist a =
        SearchOutcome.resortError ch) ∨
      dispatchSearchTours today hist a =
        SearchOutcome.cascadeError ((checkCascadeSlots hist).2.headD "")
          (nudgeMap ((checkCascadeSlots hist).2.headD "")) := by
    unfold dispatchSearchTours
    dsimp only
    split
    · rcases h2 : resortHit hist with _ | ch
      · exact Or.inr hAfter
      · exact Or.inl ⟨ch, rfl⟩
    · exact Or.inr hAfter
  constructor
  · intro a2 hsub
    rcases key with ⟨ch, hk⟩ | hk <;> rw [hk] at hsub <;>
      exact SearchOutcome.noConfusion hsub
  · intro hpre
    rcases hpre with hfilters | hres
    · have hcond : (!pyTruthyStr (normalizeDateWindow today a).regions &&
          !pyTruthyStr (normalizeDateWindow today a).subregions &&
          !pyTruthyStr (normalizeDateWindow today a).hotels) = false := by
        obtain ⟨h1, h2, h3⟩ := normalizeDateWindow_preserves_filters today a
        rw [h1, h2, h3]
        revert hfilters
        cases pyTruthyStr a.regions <;> cases pyTruthyStr a.subregions <;>
          cases pyTruthyStr a.hotels <;> simp
      unfold dispatchSearchTours
      dsimp only
      rw [hcond]
      simp only [Bool.false_eq_true, if_false]
      exact hAfter
    · unfold dispatchSearchTours
      dsimp only
      split
      · rw [hres]
        exact hAfter
      · exact hAfter

/-- C1 witness: the history "Хотим в Турцию" with a region filter supplied is
blocked with the departure-city question (and in particular not submitted). -/
theorem c1_witness :
    dispatchSearchTours 0 [⟨"user", "Хотим в Турцию"⟩]
      ⟨Option.none, Option.none, Option.none, Option.none, Option.none,
        Option.none, some "1", Option.none, Option.none⟩ ≠
      SearchOutcome.submit
        ⟨Option.none, Option.none, Option.none, Option.none, Option.none,
          Option.none, some "1", Option.none, Option.none⟩ ∧
    dispatchSearchTours 0 [⟨"user", "Хотим в Турцию"⟩]
      ⟨Option.none, Option.none, Option.none, Option.none, Option.none,
        Option.none, some "1", Option.none, Option.none⟩ =
      SearchOutcome.cascadeError "город вылета"
        "\x27Из какого города планируете вылет?\x27" := by
  have h := c1_cascade_gate_blocks_search 0 [⟨"user", "Хотим в Турцию"⟩]
    ⟨Option.none, Option.none, Option.none, Option.none, Option.none,
      Option.none, some "1", Option.none, Option.none⟩ (by decide)
  exact ⟨h.1 _, (h.2 (Or.inl (by decide))).trans (by decide)⟩

/-- Helper for the past-date branch: the adjusted end date never precedes the
new start date. -/
theorem shiftedEndBound (b x : Nat) :
    ∃ e, (some (if x < b + 1 then b + 1 + 2 else x) : Option Nat) = some e ∧
      b + 1 ≤ e := by
  by_cases h : x < b + 1
  · rw [if_pos h]; exact ⟨b + 1 + 2, rfl, by omega⟩
  · rw [if_neg h]; exact ⟨x, rfl, by omega⟩

/-- C5: the date-window normalization satisfies the three specified
behaviors — a start date with no end date gets end = start + 2 days
(01.03.2026 gives 03.03.2026); a start with nightsfrom = 7 and an end 7 days
later (08.03.2026) gets the end clamped back to start + 2 (03.03.2026); and a
start date before the current date is shifted to tomorrow with the end date
never preceding the new start (moved to tomorrow + 2 when it would). -/
theorem c5_date_window_normalization
    (today todayPast df : Nat) (dt : Option Nat) (nf nt : Option Int)
    (h1 : today ≤ daysFromCivil 2026 3 1)
    (h2 : df < todayPast) :
    normalizeDateWindow today
        ⟨Option.none, Option.none, some (daysFromCivil 2026 3 1), Option.none,
          Option.none, Option.none, Option.none, Option.none, Option.none⟩ =
      ⟨Option.none, Option.none, some (daysFromCivil 2026 3 1),
        some (daysFromCivil 2026 3 3), Option.none, Option.none, Option.none,
        Option.none, Option.none⟩ ∧
    normalizeDateWindow today
        ⟨Option.none, Option.none, some (daysFromCivil 2026 3 1),
          some (daysFromCivil 2026 3 8), some 7, Option.none, Option.none,
          Option.none, Option.none⟩ =
      ⟨Option.none, Option.none, some (daysFromCivil 2026 3 1),
        some (daysFromCivil 2026 3 3), some 7, Option.none, Option.none,
        Option.none, Option.none⟩ ∧
    ((normalizeDateWindow todayPast
        ⟨Option.none, Option.none, some df, dt, nf, nt, Option.none,
          Option.none, Option.none⟩).datefrom = some (todayPast + 1) ∧
      ∃ e, (normalizeDateWindow todayPast
        ⟨Option.none, Option.none, some df, dt, nf, nt, Option.none,
          Option.none, Option.none⟩).dateto = some e ∧ todayPast + 1 ≤ e) := by
  refine ⟨?_, ?_, ?_, ?_⟩
  · unfold normalizeDateWindow
    dsimp only
    rw [if_neg (by omega)]
    decide
  · unfold normalizeDateWindow
    dsimp only
    rw [if_neg (by omega)]
    decide
  · unfold normalizeDateWindow
    dsimp only
    rw [if_pos h2]
    rfl
  · unfold normalizeDateWindow
    dsimp only
    rw [if_pos h2]
    dsimp only [setDates]
    exact shiftedEndBound todayPast _

/-- C5 witness: current date 12.10.2025 for the two future examples; a past
start 01.03.2025 (current date 15.10.2025) is shifted to 16.10.2025 with the
end date following. -/
theorem c5_witness :
    normalizeDateWindow (daysFromCivil 2025 10 12)
        ⟨Option.none, Option.none, some (daysFromCivil 2026 3 1), Option.none,
          Option.none, Option.none, Option.none, Option.none, Option.none⟩ =
      ⟨Option.none, Option.none, some (daysFromCivil 2026 3 1),
        some (daysFromCivil 2026 3 3), Option.none, Option.none, Option.none,
        Option.none, Option.none⟩ ∧
    normalizeDateWindow (daysFromCivil 2025 10 12)
        ⟨Option.none, Option.none, some (daysFromCivil 2026 3 1),
          some (daysFromCivil 2026 3 8), some 7, Option.none, Option.none,
          Option.none, Option.none⟩ =
      ⟨Option.none, Option.none, some (daysFromCivil 2026 3 1),
        some (daysFromCivil 2026 3 3), some 7, Option.none, Option.none,
        Option.none, Option.none⟩ ∧
    ((normalizeDateWindow (daysFromCivil 2025 10 15)
        ⟨Option.none, Option.none, some (daysFromCivil 2025 3 1),
          some (daysFromCivil 2025 3 3), Option.none, Option.none, Option.none,
          Option.none, Option.none⟩).datefrom =
        some (daysFromCivil 2025 10 15 + 1) ∧
      ∃ e, (normalizeDateWindow (daysFromCivil 2025 10 15)
        ⟨Option.none, Option.none, some (daysFromCivil 2025 3 1),
          some (daysFromCivil 2025 3 3), Option.none, Option.none, Option.none,
          Option.none, Option.none⟩).dateto = some e ∧
        daysFromCivil 2025 10 15 + 1 ≤ e) :=
  c5_date_window_normalization (daysFromCivil 2025 10 12)
    (daysFromCivil 2025 10 15) (daysFromCivil 2025 3 1)
    (some (daysFromCivil 2025 3 3)) Option.none Option.none
    (by decide) (by decide)

/-- Length of `dropWhile` never exceeds the input length. -/
theorem dropWhile_length_le (p : Char → Bool) (s : List Char) :
    (s.dropWhile p).length ≤ s.length := by
  induction s with
  | nil => simp [List.dropWhile]
  | cons c rest ih =>
    simp only [List.dropWhile]
    split
    · simp only [List.length_cons]; omega
    · simp

/-- Stripping never lengthens a string. -/
theorem pyStrip_length_le (s : List Char) : (pyStrip s).length ≤ s.length := by
  unfold pyStrip
  have h1 := dropWhile_length_le pyIsSpace s
  have h2 := dropWhile_length_le pyIsSpace (s.dropWhile pyIsSpace).reverse
  simp only [List.length_reverse] at *
  omega

/-- A successful `findSubAux` returns an index at or after its start index. -/
theorem findSubAux_start_le (needle : List Char) :
    ∀ (s : List Char) (i j : Nat), findSubAux needle s i = some j → i ≤ j := by
  intro s
  induction s with
  | nil =>
    intro i j h
    unfold findSubAux at h
    split at h
    · injection h with h2; omega
    · cases h
  | cons c rest ih =>
    intro i j h
    unfold findSubAux at h
    split at h
    · injection h with h2; omega
    · have := ih (i + 1) j h; omega

/-- C9: duplicate-content cleanup is the identity on every text shorter than
100 characters, and on a long text whose stripped first line (at least 10
characters) recurs verbatim after the first newline it returns exactly the
prefix up to (not including) that second occurrence, with trailing artifact
characters stripped. -/
theorem c9_dedup_cleanup (t : String) (i j : Nat) (fl : List Char)
    (hlen : 100 ≤ t.data.length)
    (hnl : findSubAux ['\n'] t.data 0 = some i)
    (hline : pyStrip (t.data.take i) = fl)
    (hlinelen : 10 ≤ fl.length)
    (hdup : findSubAux fl (t.data.drop (i + 1)) (i + 1) = some j) :
    (∀ s : String, s.data.length < 100 → dedupResponse s = s) ∧
    dedupResponse t = String.mk (rstripArtifacts (t.data.take j)) := by
  constructor
  · intro s hs
    unfold dedupResponse
    rw [if_pos hs]
  · have hi : 10 ≤ i := by
      have ha := pyStrip_length_le (t.data.take i)
      have hb : (t.data.take i).length ≤ i := by
        simp [List.length_take]
      rw [hline] at ha
      omega
    have hj : i + 1 ≤ j := findSubAux_start_le fl (t.data.drop (i + 1)) (i + 1) j hdup
    have he : fl.isEmpty = false := by
      rcases fl with _ | ⟨c, rest⟩
      · simp at hlinelen
      · rfl
    have hd : decide (fl.length < 10) = false := by
      simp only [decide_eq_false_iff_not]
      omega
    unfold dedupResponse
    rw [if_neg (by omega)]
    rw [hnl]
    dsimp only
    rw [if_neg (by omega)]
    rw [hline]
    simp only [he, hd, Bool.or_self, Bool.false_eq_true, if_false]
    rw [hdup]
    dsimp only
    rw [if_pos (by omega : 0 < j)]

set_option maxRecDepth 8000 in
/-- C9 witness: a 129-character text whose 16-character first line recurs at
index 98; cleanup returns the 98-character prefix with the trailing newline
stripped; a short text is untouched. -/
theorem c9_witness :
    dedupResponse ("ABCDEFGHIJKLMNOP\n" ++ String.mk (List.replicate 80 'x') ++
        "\nABCDEFGHIJKLMNOP\nmore text here") =
      "ABCDEFGHIJKLMNOP\n" ++ String.mk (List.replicate 80 'x') ∧
    dedupResponse "короткий текст" = "короткий текст" := by
  have h := c9_dedup_cleanup
    ("ABCDEFGHIJKLMNOP\n" ++ String.mk (List.replicate 80 'x') ++
      "\nABCDEFGHIJKLMNOP\nmore text here") 16 98 ("ABCDEFGHIJKLMNOP".data)
    (by decide) (by decide) (by decide) (by decide) (by decide)
  exact ⟨h.2.trans (by decide), h.1 "короткий текст" (by decide)⟩
